import Mathlib

/-!
Verification development for a tax-return preparation backend.

The definitions below are shallow embeddings of the TypeScript sources:
  * `src/unnamed/part_000`   — document processing pipeline (POST handler and helpers)
  * `src/unnamed/part_001`   — enhanced tax calculation with state integration
  * `src/lib/state-tax-calculations.ts` — state tax calculator
  * `src/app/api/documents/[id]/route.ts` — document DELETE handler
  * `src/app/api/documents/[id]/status-stream/route.ts` — status stream and
    state detection (`detectStateFromDocument` and helpers)

Monetary values and all JS numbers are modelled as rationals (ℚ); the only
floating-point operations the sources perform on them are +, *, min, max,
comparison and `Math.round(x*100)/100`, all of which are modelled exactly.
External collaborators that are not part of the repository sources
(the Azure OCR service, the LLM classifier transport, `tax-calculations.ts`
(federal calculator, not present under src/), `state-tax-data.ts` (the static
state table, not present under src/), the Prisma-generated mappers and the
JS `parseFloat` builtin) are parameters of the embedding.
-/

/-- JS `Math.round`: round half toward positive infinity. -/
def jround (q : ℚ) : ℤ := ⌊q + 1/2⌋

/-- `Math.round(q * 100) / 100` — round to cents, as the sources do. -/
def round2 (q : ℚ) : ℚ := ((jround (q * 100) : ℤ) : ℚ) / 100

/-- JS `a || b` on numbers: `a` unless `a` is falsy (0), in which case `b`. -/
def jsOrQ (a b : ℚ) : ℚ := if a = 0 then b else a

/-- JS `a || b` on optional strings: `b` when `a` is `null`/`undefined` or `""`. -/
def jsOrStr (a : Option String) (b : String) : String :=
  match a with
  | some s => if s = "" then b else s
  | none => b

/-- JS `a || b` where both sides are nullable strings (used for field merging). -/
def jsOrOpt (a b : Option String) : Option String :=
  match a with
  | some s => if s = "" then b else some s
  | none => b

/-- JS `x?.f || 0` where `x : Option` carries a rational field. -/
def optQ (o : Option ℚ) : ℚ := o.getD 0

/-!
Char-level string operations.  The Lean core `String` functions
(`toLower`, `toUpper`, `trim`, `startsWith`, `replace`, `splitOn`) are
implemented by byte-position recursion that the kernel cannot evaluate, so
the embedding uses these character-list equivalents throughout.
-/

/-- `s.toLowerCase()`. -/
def sToLower (s : String) : String := String.mk (s.data.map Char.toLower)

/-- `s.toUpperCase()`. -/
def sToUpper (s : String) : String := String.mk (s.data.map Char.toUpper)

/-- `s.trim()`: strip whitespace from both ends. -/
def sTrim (s : String) : String :=
  String.mk (((s.data.dropWhile Char.isWhitespace).reverse.dropWhile
    Char.isWhitespace).reverse)

/-- `s.startsWith(pre)`. -/
def sStartsWith (s pre : String) : Bool := pre.data.isPrefixOf s.data

/-- `s.includes(pat)`: substring containment. -/
def containsSubstr (s pat : String) : Bool :=
  (s.data.tails).any (fun t => pat.data.isPrefixOf t)

/-!
## Amount normalizer (`parseAmount`, src/unnamed/part_000 lines 571-580)

A JS runtime value as far as `parseAmount` observes it.  A number that is
`NaN` is its own constructor (`typeof NaN === 'number'` but `isNaN` holds);
every other number is a rational.  Objects and arrays are opaque since
`parseAmount` only reaches its final `return 0` for them.
-/
inductive JsValue where
  | jnull
  | jundef
  | jnum (q : ℚ)
  | jnan
  | jstr (s : String)
  | jbool (b : Bool)
  | jobj
  | jarr
deriving DecidableEq, Repr

/-- `value.replace(/[$,\s]/g, '')`: drop dollar signs, commas and whitespace. -/
def cleanAmount (s : String) : String :=
  String.mk (s.toList.filter (fun c => !(c = '$' || c = ',' || c.isWhitespace)))

/--
`parseAmount` from src/unnamed/part_000.  `pf` is the JS `parseFloat`
builtin (external), returning `none` for `NaN`.
-/
def parseAmount (pf : String → Option ℚ) : JsValue → ℚ
  | .jnull => 0
  | .jundef => 0
  | .jnum q => q
  | .jnan => 0
  | .jstr s =>
    match pf (cleanAmount s) with
    | some q => q
    | none => 0
  | .jbool _ => 0
  | .jobj => 0
  | .jarr => 0

/-!
## State tax calculator (src/lib/state-tax-calculations.ts)

`state-tax-data.ts` is not part of the sources; `getStateInfo` is therefore a
parameter `lookup : String → Option StateTaxInfo`.  A bracket's `max` is
`Option ℚ` with `none` standing for the TS `Infinity`.
-/
structure TaxBracket where
  min : ℚ
  max : Option ℚ
  rate : ℚ
deriving DecidableEq, Repr

/-- Per-filing-status standard deductions of a state's table. -/
structure StdDeduction where
  single : ℚ
  marriedFilingJointly : ℚ
  marriedFilingSeparately : ℚ
  headOfHousehold : ℚ
  qualifyingSurvivingSpouse : Option ℚ
deriving DecidableEq

structure StateTaxInfo where
  stateCode : String
  stateName : String
  hasIncomeTax : Bool
  brackets : String → Option (List TaxBracket)
  standardDeduction : StdDeduction
  personalExemption : Option ℚ
  notes : Option String

/-- `filingStatus.toLowerCase().replace(/_/g, '')`: lower-case, then drop
every underscore (replacing each `_` with the empty string). -/
def normalizeFilingStatus (s : String) : String :=
  String.mk ((s.data.map Char.toLower).filter (fun c => c ≠ '_'))

/-- `Math.min(taxableIncome, bracket.max)` where `none` is `Infinity`. -/
def minCap (ti : ℚ) (omax : Option ℚ) : ℚ :=
  match omax with
  | none => ti
  | some m => min ti m

/--
The bracket loop of `calculateStateTaxLiability`: accumulate
`(min(ti, bracket.max) - bracket.min) * rate`, stopping (`break`) at the
first bracket whose `min` is at or above the taxable income.
-/
def bracketTax : List TaxBracket → ℚ → ℚ
  | [], _ => 0
  | b :: bs, ti =>
    if ti ≤ b.min then 0
    else (minCap ti b.max - b.min) * b.rate + bracketTax bs ti

/-- `calculateStateTaxLiability(taxableIncome, filingStatus, stateCode)`. -/
def calculateStateTaxLiability (lookup : String → Option StateTaxInfo)
    (taxableIncome : ℚ) (filingStatus stateCode : String) : ℚ :=
  match lookup stateCode with
  | none => 0
  | some info =>
    if !info.hasIncomeTax then 0
    else
      match info.brackets (normalizeFilingStatus filingStatus) with
      | none => 0
      | some brackets =>
        if brackets.isEmpty then 0
        else round2 (bracketTax brackets taxableIncome)

/--
The spec's formula (§4.3 of the natural-language spec): marginal, not cliff —
the sum over all brackets whose floor lies below the income of
`(min(I, bracket.max) - bracket.min) * rate`.  This definition follows the
spec's words and is compared against the source loop `bracketTax`.
-/
def marginalTaxSpec (brackets : List TaxBracket) (I : ℚ) : ℚ :=
  ((brackets.filter (fun b => decide (b.min < I))).map
    (fun b => (minCap I b.max - b.min) * b.rate)).sum

/-- `getStateStandardDeduction(filingStatus, stateCode)`. -/
def getStateStandardDeduction (lookup : String → Option StateTaxInfo)
    (filingStatus stateCode : String) : ℚ :=
  match lookup stateCode with
  | none => 0
  | some info =>
    if !info.hasIncomeTax then 0
    else
      let status := normalizeFilingStatus filingStatus
      if status = "single" then info.standardDeduction.single
      else if status = "marriedfilingjointly" then info.standardDeduction.marriedFilingJointly
      else if status = "marriedfilingseparately" then info.standardDeduction.marriedFilingSeparately
      else if status = "headofhousehold" then info.standardDeduction.headOfHousehold
      else if status = "qualifyingsurvivingspouse" then
        -- `standardDeduction.qualifyingSurvivingSpouse || standardDeduction.marriedFilingJointly`
        match info.standardDeduction.qualifyingSurvivingSpouse with
        | some q => jsOrQ q info.standardDeduction.marriedFilingJointly
        | none => info.standardDeduction.marriedFilingJointly
      else info.standardDeduction.single

/-- `getStatePersonalExemption(stateCode)`: `stateInfo?.personalExemption || 0`. -/
def getStatePersonalExemption (lookup : String → Option StateTaxInfo)
    (stateCode : String) : ℚ :=
  match lookup stateCode with
  | none => 0
  | some info =>
    match info.personalExemption with
    | some q => q
    | none => 0

structure StateTaxCalculationResult where
  stateCode : String
  stateName : String
  hasIncomeTax : Bool
  stateStandardDeduction : ℚ
  stateItemizedDeduction : ℚ
  stateTaxableIncome : ℚ
  stateTaxLiability : ℚ
  statePersonalExemption : ℚ
  stateEffectiveRate : ℚ
  stateMarginalRate : ℚ
  notes : Option String
deriving DecidableEq

/-- Input record of `calculateStateTax`.  `dependents: any[]` is observed only
through its length, modelled as `dependentsCount`. -/
structure StateTaxData where
  adjustedGrossIncome : ℚ
  filingStatus : String
  stateCode : String
  stateItemizedDeductions : ℚ
  dependentsCount : ℕ

/-- The marginal-rate scan at the end of `calculateStateTax`: the rate of the
last bracket (in list order) whose `min` lies below the taxable income. -/
def marginalRateScan (brackets : List TaxBracket) (ti : ℚ) : ℚ :=
  brackets.foldl (fun acc b => if b.min < ti then b.rate * 100 else acc) 0

/--
`calculateStateTax` from src/lib/state-tax-calculations.ts.  Throws
(`Except.error`) exactly when `getStateInfo` finds no entry for the state.
-/
def calculateStateTax (lookup : String → Option StateTaxInfo)
    (data : StateTaxData) : Except String StateTaxCalculationResult :=
  match lookup data.stateCode with
  | none => .error ("Unsupported state: " ++ data.stateCode)
  | some info =>
    let base : StateTaxCalculationResult :=
      { stateCode := info.stateCode
        stateName := info.stateName
        hasIncomeTax := info.hasIncomeTax
        stateStandardDeduction := 0
        stateItemizedDeduction := data.stateItemizedDeductions
        stateTaxableIncome := 0
        stateTaxLiability := 0
        statePersonalExemption := getStatePersonalExemption lookup data.stateCode
        stateEffectiveRate := 0
        stateMarginalRate := 0
        notes := info.notes }
    if !info.hasIncomeTax then .ok base
    else
      let ssd := getStateStandardDeduction lookup data.filingStatus data.stateCode
      let stateDeduction := max ssd data.stateItemizedDeductions
      let personalExemptionTotal :=
        base.statePersonalExemption * (1 + (data.dependentsCount : ℚ))
      let sti := max 0 (data.adjustedGrossIncome - stateDeduction - personalExemptionTotal)
      let liability := calculateStateTaxLiability lookup sti data.filingStatus data.stateCode
      let effRate :=
        if 0 < data.adjustedGrossIncome then liability / data.adjustedGrossIncome * 100 else 0
      let margRate :=
        match info.brackets (normalizeFilingStatus data.filingStatus) with
        | some brackets => marginalRateScan brackets sti
        | none => 0
      .ok { base with
              stateStandardDeduction := ssd
              stateTaxableIncome := sti
              stateTaxLiability := liability
              stateEffectiveRate := effRate
              stateMarginalRate := margRate }

structure CombinedTaxResult where
  federalTaxableIncome : ℚ
  federalTaxLiability : ℚ
  federalEffectiveRate : ℚ
  federalMarginalRate : ℚ
  stateTax : StateTaxCalculationResult
  totalTaxLiability : ℚ
  totalEffectiveRate : ℚ
  totalCredits : ℚ
  totalWithholdings : ℚ
  finalTax : ℚ
  refundAmount : ℚ
  amountOwed : ℚ
deriving DecidableEq

/-- Input record of `calculateCombinedTax`. -/
structure CombinedTaxData where
  adjustedGrossIncome : ℚ
  federalTaxableIncome : ℚ
  federalTaxLiability : ℚ
  federalEffectiveRate : ℚ
  federalMarginalRate : ℚ
  filingStatus : String
  stateCode : String
  stateItemizedDeductions : ℚ
  dependentsCount : ℕ
  totalCredits : ℚ
  totalWithholdings : ℚ

/-- `calculateCombinedTax` — propagates the state calculator's throw. -/
def calculateCombinedTax (lookup : String → Option StateTaxInfo)
    (data : CombinedTaxData) : Except String CombinedTaxResult :=
  match calculateStateTax lookup
      { adjustedGrossIncome := data.adjustedGrossIncome
        filingStatus := data.filingStatus
        stateCode := data.stateCode
        stateItemizedDeductions := data.stateItemizedDeductions
        dependentsCount := data.dependentsCount } with
  | .error e => .error e
  | .ok stateTax =>
    let totalTaxLiability := data.federalTaxLiability + stateTax.stateTaxLiability
    let totalEffectiveRate :=
      if 0 < data.adjustedGrossIncome then totalTaxLiability / data.adjustedGrossIncome * 100
      else 0
    let finalTax := totalTaxLiability - data.totalCredits - data.totalWithholdings
    let refundAmount := if finalTax < 0 then |finalTax| else 0
    let amountOwed := if 0 < finalTax then finalTax else 0
    .ok { federalTaxableIncome := data.federalTaxableIncome
          federalTaxLiability := data.federalTaxLiability
          federalEffectiveRate := data.federalEffectiveRate
          federalMarginalRate := data.federalMarginalRate
          stateTax := stateTax
          totalTaxLiability := totalTaxLiability
          totalEffectiveRate := totalEffectiveRate
          totalCredits := data.totalCredits
          totalWithholdings := data.totalWithholdings
          finalTax := finalTax
          refundAmount := refundAmount
          amountOwed := amountOwed }

/-!
## Enhanced tax calculation with state integration (src/unnamed/part_001)

`tax-calculations.ts` (the federal calculator: `calculateTaxReturn`,
`calculateTaxLiability`, `getStandardDeduction`) is not among the sources, so
the federal sub-result produced by `calculateEnhancedTaxReturn` is an input
`fedE : Except String FederalPart` of the embedding: `Except.error` models the
missing federal code throwing.  The state-integration logic (part_001 lines
166-285) is embedded from the source.
-/
structure DeductionComparison where
  standardDeduction : ℚ
  itemizedDeduction : ℚ
  standardTaxLiability : ℚ
  itemizedTaxLiability : ℚ
  recommendedMethod : String
  taxSavings : ℚ
  effectiveStandardRate : ℚ
  effectiveItemizedRate : ℚ
deriving DecidableEq

/-- Fields of the federal-only `EnhancedTaxCalculationResult` (the result of
`calculateEnhancedTaxReturn`, whose internals live in the missing
`tax-calculations.ts`). -/
structure FederalPart where
  totalIncome : ℚ
  adjustedGrossIncome : ℚ
  standardDeduction : ℚ
  itemizedDeduction : ℚ
  taxableIncome : ℚ
  taxLiability : ℚ
  totalCredits : ℚ
  totalWithholdings : ℚ
  finalTax : ℚ
  refundAmount : ℚ
  amountOwed : ℚ
  effectiveRate : ℚ
  marginalRate : ℚ
  deductionComparison : DeductionComparison
  taxOptimizationSuggestions : List String
deriving DecidableEq

/-- `EnhancedTaxCalculationResult` with the optional state-tax extension
(`stateTax?`, `combinedTaxResult?`): absent fields are `none`. -/
structure EnhancedTaxCalculationResult where
  fed : FederalPart
  stateTax : Option StateTaxCalculationResult
  combinedTaxResult : Option CombinedTaxResult
deriving DecidableEq

/-- A federal-only result: the state extension fields are absent. -/
def toEnhanced (f : FederalPart) : EnhancedTaxCalculationResult :=
  { fed := f, stateTax := none, combinedTaxResult := none }

/-- Rendering of a JS number inside a suggestion string.  The JS sources use
`toLocaleString`/`toFixed`; the exact digits are not load-bearing anywhere, so
a plain rational rendering stands in for them. -/
def fmtQ (q : ℚ) : String := toString q

/-- `generateStateTaxOptimizationSuggestions` (part_001 lines 249-285). -/
def generateStateTaxOptimizationSuggestions (federalSuggestions : List String)
    (stateTax : StateTaxCalculationResult) (dc : DeductionComparison) : List String :=
  if !stateTax.hasIncomeTax then
    ("💰 Great news! " ++ stateTax.stateName ++ " has no state income tax, saving you money!")
      :: federalSuggestions
  else
    let stateSavings := (stateTax.stateItemizedDeduction - stateTax.stateStandardDeduction)
      * (stateTax.stateMarginalRate / 100)
    let sug1 :=
      if 0 < stateTax.stateTaxLiability then
        federalSuggestions
          ++ ["📍 " ++ stateTax.stateName ++ " state tax: $" ++ fmtQ stateTax.stateTaxLiability
                ++ " (" ++ fmtQ stateTax.stateEffectiveRate ++ "% effective rate)"]
          ++ (if 0 < stateTax.stateStandardDeduction
                && stateTax.stateStandardDeduction < stateTax.stateItemizedDeduction
                && 100 < stateSavings then
                ["🏛️ Itemizing saves $" ++ fmtQ stateSavings ++ " on "
                  ++ stateTax.stateName ++ " state taxes"]
              else [])
          ++ (if 5 < stateTax.stateEffectiveRate then
                ["⚡ " ++ stateTax.stateName
                  ++ " has relatively high state taxes. Consider tax-advantaged retirement contributions."]
              else [])
      else federalSuggestions
    if stateTax.stateStandardDeduction ≠ dc.standardDeduction then
      sug1 ++ ["🔄 Note: " ++ stateTax.stateName ++ " has different deduction amounts than federal"]
    else sug1

/-- Input record of `calculateEnhancedTaxReturnWithState`. -/
structure EnhancedTaxData where
  totalIncome : ℚ
  filingStatus : String
  dependentsCount : ℕ
  itemizedDeductions : ℚ
  totalWithholdings : ℚ
  stateCode : Option String
  stateItemizedDeductions : ℚ

/--
`calculateEnhancedTaxReturnWithState` (part_001 lines 167-246).  The federal
sub-computation is the parameter `fedE`; everything after it is embedded from
the source: no state code returns the federal result unchanged; a state-tax
throw is caught and falls back to the federal result with a warning note
appended; otherwise the combined result overrides the final figures.
-/
def calculateEnhancedTaxReturnWithState (lookup : String → Option StateTaxInfo)
    (fedE : Except String FederalPart) (data : EnhancedTaxData) :
    Except String EnhancedTaxCalculationResult :=
  match fedE with
  | .error e => .error e
  | .ok fed =>
    match data.stateCode with
    | none => .ok (toEnhanced fed)
    | some sc =>
      match calculateCombinedTax lookup
          { adjustedGrossIncome := fed.adjustedGrossIncome
            federalTaxableIncome := fed.taxableIncome
            federalTaxLiability := fed.taxLiability
            federalEffectiveRate := fed.effectiveRate
            federalMarginalRate := fed.marginalRate
            filingStatus := data.filingStatus
            stateCode := sc
            stateItemizedDeductions := jsOrQ data.stateItemizedDeductions data.itemizedDeductions
            dependentsCount := data.dependentsCount
            totalCredits := fed.totalCredits
            totalWithholdings := fed.totalWithholdings } with
      | .ok comb =>
        .ok { fed := { fed with
                finalTax := comb.finalTax
                refundAmount := comb.refundAmount
                amountOwed := comb.amountOwed
                taxOptimizationSuggestions :=
                  generateStateTaxOptimizationSuggestions
                    fed.taxOptimizationSuggestions comb.stateTax fed.deductionComparison }
              stateTax := some comb.stateTax
              combinedTaxResult := some comb }
      | .error _ =>
        .ok { fed := { fed with
                taxOptimizationSuggestions := fed.taxOptimizationSuggestions
                  ++ ["⚠️ State tax calculation failed for " ++ sc
                        ++ ". Showing federal taxes only."] }
              stateTax := none
              combinedTaxResult := none }

/-!
## State detection (src/app/api/documents/[id]/status-stream/route.ts,
second section: `detectStateFromDocument` and helpers)

The five address regexes of `parseStateFromAddress` are embedded through a
small backtracking matcher over `RItem` sequences; each constructor
corresponds one-to-one to a fragment of the source's regex literals.
-/

/-- The `US_STATES` code-to-name table (50 states plus DC). -/
def usStates : List (String × String) :=
  [("AL", "Alabama"), ("AK", "Alaska"), ("AZ", "Arizona"), ("AR", "Arkansas"),
   ("CA", "California"), ("CO", "Colorado"), ("CT", "Connecticut"), ("DE", "Delaware"),
   ("FL", "Florida"), ("GA", "Georgia"), ("HI", "Hawaii"), ("ID", "Idaho"),
   ("IL", "Illinois"), ("IN", "Indiana"), ("IA", "Iowa"), ("KS", "Kansas"),
   ("KY", "Kentucky"), ("LA", "Louisiana"), ("ME", "Maine"), ("MD", "Maryland"),
   ("MA", "Massachusetts"), ("MI", "Michigan"), ("MN", "Minnesota"), ("MS", "Mississippi"),
   ("MO", "Missouri"), ("MT", "Montana"), ("NE", "Nebraska"), ("NV", "Nevada"),
   ("NH", "New Hampshire"), ("NJ", "New Jersey"), ("NM", "New Mexico"), ("NY", "New York"),
   ("NC", "North Carolina"), ("ND", "North Dakota"), ("OH", "Ohio"), ("OK", "Oklahoma"),
   ("OR", "Oregon"), ("PA", "Pennsylvania"), ("RI", "Rhode Island"), ("SC", "South Carolina"),
   ("SD", "South Dakota"), ("TN", "Tennessee"), ("TX", "Texas"), ("UT", "Utah"),
   ("VT", "Vermont"), ("VA", "Virginia"), ("WA", "Washington"), ("WV", "West Virginia"),
   ("WI", "Wisconsin"), ("WY", "Wyoming"), ("DC", "District of Columbia")]

/-- `US_STATES[code]` — the state name, when the code is valid. -/
def usLookup (code : String) : Option String :=
  (usStates.find? (fun p => p.1 = code)).map (fun p => p.2)

/-- `STATE_NAME_TO_CODE[name]` — keys are lower-cased state names. -/
def nameToCode (lowerName : String) : Option String :=
  (usStates.find? (fun p => sToLower p.2 = lowerName)).map (fun p => p.1)

/-- JS `\s` (whitespace class). -/
def wsC (c : Char) : Bool := c.isWhitespace

/-- JS `\d`. -/
def digitC (c : Char) : Bool := c.isDigit

/-- Regex class `[A-Z]`. -/
def upperC (c : Char) : Bool := c.isUpper

/-- Regex class `[A-Za-z\s]`. -/
def alphaSpaceC (c : Char) : Bool := c.isAlpha || c.isWhitespace

/-- JS `\w` (word character), used by the `\b` boundary. -/
def wordC (c : Char) : Bool := c.isAlphanum || c = '_'

/-- One fragment of a regex: literal, greedy class star/plus, exact class
repetition, capture group (class repetition or class plus — the two shapes
appearing in the sources), the optional zip+4 suffix `(?:-\d{4})?`, the end
anchor `$` and the word boundary `\b`. -/
inductive RItem where
  | lit (c : Char)
  | star (p : Char → Bool)
  | plus (p : Char → Bool)
  | rep (n : ℕ) (p : Char → Bool)
  | grpRep (n : ℕ) (p : Char → Bool)
  | grpPlus (p : Char → Bool)
  | optZip4
  | eos
  | wb

/-- Last consumed character, for word-boundary context. -/
def lastOf (consumed : List Char) (prev : Option Char) : Option Char :=
  match consumed.getLast? with
  | some c => some c
  | none => prev

/-- Greedy splits of a class star: consumed/remaining pairs, longest first. -/
def splitsStar (p : Char → Bool) (s : List Char) : List (List Char × List Char) :=
  let n := (s.takeWhile p).length
  ((List.range (n + 1)).reverse).map (fun k => (s.take k, s.drop k))

/-- Greedy splits of a class plus: at least one character, longest first. -/
def splitsPlus (p : Char → Bool) (s : List Char) : List (List Char × List Char) :=
  let n := (s.takeWhile p).length
  ((List.range n).reverse).map (fun k => (s.take (k + 1), s.drop (k + 1)))

/-- Exactly `n` characters of class `p`. -/
def takeExact (n : ℕ) (p : Char → Bool) (s : List Char) :
    Option (List Char × List Char) :=
  let t := s.take n
  if t.length = n && t.all p then some (t, s.drop n) else none

/-- Word-ness of an optional character (out of range counts as non-word). -/
def isWordO (oc : Option Char) : Bool :=
  match oc with
  | some c => wordC c
  | none => false

/--
Backtracking matcher: all ways to match the item sequence against a prefix of
`s`, in backtracking priority order (greedy alternatives first).  Each outcome
is the content of the (single) capture group together with the unconsumed
suffix.  `prev` is the character immediately before `s`, needed by `\b`.
-/
def mseq : List RItem → Option Char → List Char → List (Option String × List Char)
  | [], _, s => [(none, s)]
  | .lit ch :: rest, _, s =>
    match s with
    | [] => []
    | c :: s' => if c = ch then mseq rest (some c) s' else []
  | .star p :: rest, prev, s =>
    (splitsStar p s).flatMap (fun pr => mseq rest (lastOf pr.1 prev) pr.2)
  | .plus p :: rest, prev, s =>
    (splitsPlus p s).flatMap (fun pr => mseq rest (lastOf pr.1 prev) pr.2)
  | .rep n p :: rest, prev, s =>
    match takeExact n p s with
    | some (t, s') => mseq rest (lastOf t prev) s'
    | none => []
  | .grpRep n p :: rest, prev, s =>
    match takeExact n p s with
    | some (t, s') => (mseq rest (lastOf t prev) s').map (fun r => (some (String.mk t), r.2))
    | none => []
  | .grpPlus p :: rest, prev, s =>
    (splitsPlus p s).flatMap (fun pr =>
      (mseq rest (lastOf pr.1 prev) pr.2).map (fun r => (some (String.mk pr.1), r.2)))
  | .optZip4 :: rest, prev, s =>
    (match s with
     | '-' :: s1 =>
       match takeExact 4 digitC s1 with
       | some (t, s2) => mseq rest (lastOf t prev) s2
       | none => []
     | _ => []) ++ mseq rest prev s
  | .eos :: rest, prev, s =>
    match s with
    | [] => mseq rest prev []
    | _ :: _ => []
  | .wb :: rest, prev, s =>
    if isWordO prev != isWordO s.head? then mseq rest prev s else []

/-- Leftmost-match scan, as JS `String.prototype.match` with a non-global
regex: try each start position left to right; at the first position with a
match, return that match's group-1 capture. -/
def scanMatch (items : List RItem) : Option Char → List Char → Option (Option String)
  | prev, l =>
    match (mseq items prev l).head? with
    | some r => some r.1
    | none =>
      match l with
      | [] => none
      | c :: rest => scanMatch items (some c) rest

/-- `address.match(pattern)?.[1]`: `none` when the pattern does not match;
`some cap` gives the capture of the first match. -/
def matchFirst (items : List RItem) (s : String) : Option (Option String) :=
  scanMatch items none s.toList

/-- Regex `/,\s*([A-Z]{2})\s+\d{5}(?:-\d{4})?/` — "City, ST 12345". -/
def patCommaST : List RItem :=
  [.lit ',', .star wsC, .grpRep 2 upperC, .plus wsC, .rep 5 digitC, .optZip4]

/-- Regex `/\s+([A-Z]{2})\s+\d{5}(?:-\d{4})?/` — "City ST 12345" (no comma). -/
def patSpaceST : List RItem :=
  [.plus wsC, .grpRep 2 upperC, .plus wsC, .rep 5 digitC, .optZip4]

/-- Regex `/,\s*([A-Za-z\s]+)\s+\d{5}(?:-\d{4})?/` — "City, State 12345". -/
def patCommaName : List RItem :=
  [.lit ',', .star wsC, .grpPlus alphaSpaceC, .plus wsC, .rep 5 digitC, .optZip4]

/-- Regex `/\b([A-Z]{2})\s*$/` — bare state code at the end. -/
def patEndST : List RItem :=
  [.wb, .grpRep 2 upperC, .star wsC, .eos]

/-- Regex `/\b([A-Za-z\s]+)\s*$/` — state name at the end. -/
def patEndName : List RItem :=
  [.wb, .grpPlus alphaSpaceC, .star wsC, .eos]

/-- The ordered pattern list of `parseStateFromAddress`. -/
def addressPatterns : List (List RItem) :=
  [patCommaST, patSpaceST, patCommaName, patEndST, patEndName]

/-- The pattern loop of `parseStateFromAddress`: for the first pattern that
matches with a truthy group, accept a valid state code (upper-cased) or a
full state name (lower-cased); otherwise fall through to the next pattern. -/
def tryPatterns (address : String) : List (List RItem) → Option String
  | [] => none
  | p :: ps =>
    match matchFirst p address with
    | some (some m1) =>
      if m1 = "" then tryPatterns address ps
      else
        let candidate := sToUpper (sTrim m1)
        if (usLookup candidate).isSome then some candidate
        else
          match nameToCode (sToLower (sTrim m1)) with
          | some code => some code
          | none => tryPatterns address ps
    | some none => tryPatterns address ps
    | none => tryPatterns address ps

/-- `parseStateFromAddress(address)`. -/
def parseStateFromAddress (address : String) : Option String :=
  tryPatterns address addressPatterns

/-- The extracted-data fields the state detector and the pipeline observe.
A non-string or absent field behaves as `none` (the sources guard every
access with `value && typeof value === 'string'`); amount-like fields keep
full JS-value generality for `parseAmount`. -/
structure ExtractedData where
  employeeState : Option String := none
  employerState : Option String := none
  recipientState : Option String := none
  payerState : Option String := none
  employeeAddress : Option String := none
  recipientAddress : Option String := none
  employerAddress : Option String := none
  payerAddress : Option String := none
  fullText : Option String := none
  llmReasoning : Option String := none
  correctedDocumentType : Option String := none
  employerName : Option String := none
  employerEIN : Option String := none
  payerName : Option String := none
  payerTIN : Option String := none
  wages : JsValue := .jundef
  federalTaxWithheld : JsValue := .jundef
  interestIncome : JsValue := .jundef
  ordinaryDividends : JsValue := .jundef
  rents : JsValue := .jundef
  royalties : JsValue := .jundef
  otherIncome : JsValue := .jundef
  nonemployeeCompensation : JsValue := .jundef
deriving DecidableEq, Repr

/-- `StateDetectionResult.source` values. -/
inductive DetectionSource where
  | address
  | employer
  | documentType
  | unknown
deriving DecidableEq, Repr

structure StateDetectionResult where
  detectedState : Option String
  confidence : ℚ
  source : DetectionSource
  rawData : ExtractedData
deriving DecidableEq, Repr

structure StateDetectionInput where
  documentType : String
  extractedData : ExtractedData

/-- The per-field check of `extractDirectStateField`: a present, non-empty
string whose trimmed upper-casing is a valid state/DC code. -/
def validStateOf (v : Option String) : Option String :=
  match v with
  | none => none
  | some s =>
    if s = "" then none
    else
      let cleanState := sToUpper (sTrim s)
      if (usLookup cleanState).isSome then some cleanState else none

/-- `extractDirectStateField` — fields in priority order `employeeState`,
`employerState`, `recipientState`, `payerState`; source is `address` exactly
for the field whose name contains "employee". -/
def extractDirectStateField (d : ExtractedData) : StateDetectionResult :=
  match validStateOf d.employeeState with
  | some st => ⟨some st, 95/100, .address, d⟩
  | none =>
    match validStateOf d.employerState with
    | some st => ⟨some st, 95/100, .employer, d⟩
    | none =>
      match validStateOf d.recipientState with
      | some st => ⟨some st, 95/100, .employer, d⟩
      | none =>
        match validStateOf d.payerState with
        | some st => ⟨some st, 95/100, .employer, d⟩
        | none => ⟨none, 0, .unknown, d⟩

/-- The per-field step of `extractStateFromAddresses`. -/
def addressStateOf (v : Option String) : Option String :=
  match v with
  | none => none
  | some a => if a = "" then none else parseStateFromAddress a

/-- `extractStateFromAddresses` — `employeeAddress`, `recipientAddress`,
`employerAddress`, `payerAddress` in that order, confidence 0.85, source
`address` for the employee/recipient fields and `employer` for the rest. -/
def extractStateFromAddresses (d : ExtractedData) : StateDetectionResult :=
  match addressStateOf d.employeeAddress with
  | some st => ⟨some st, 85/100, .address, d⟩
  | none =>
    match addressStateOf d.recipientAddress with
    | some st => ⟨some st, 85/100, .address, d⟩
    | none =>
      match addressStateOf d.employerAddress with
      | some st => ⟨some st, 85/100, .employer, d⟩
      | none =>
        match addressStateOf d.payerAddress with
        | some st => ⟨some st, 85/100, .employer, d⟩
        | none => ⟨none, 0, .unknown, d⟩

/-- Parsed JSON body of the LLM response. -/
structure LlmJson where
  stateCode : Option String := none
  confidence : Option ℚ := none
  reasoning : Option String := none
deriving DecidableEq, Repr

/-- Outcome of the `fetch` to the classifier endpoint: a transport error, or
an HTTP response with its `ok` flag and parsed JSON body. -/
structure LlmHttpResp where
  ok : Bool
  json : LlmJson
deriving DecidableEq, Repr

/-- The external classifier transport: `Except.error` is a thrown transport
or JSON-parse failure. -/
def LlmFetch : Type := Except Unit LlmHttpResp

/-- `Math.min(Math.max(result.confidence || 0.7, 0), 1)`. -/
def clampConfidence (oc : Option ℚ) : ℚ :=
  let v := match oc with
    | some q => jsOrQ q (7/10)
    | none => 7/10
  min (max v 0) 1

/--
`detectStateUsingLLM` — every failure (transport error, non-ok response,
missing or invalid state code) is caught and yields the no-state result, so
the function is total: classifier failure never propagates.
-/
def detectStateUsingLLM (fetchRes : LlmFetch) (input : StateDetectionInput) :
    StateDetectionResult :=
  let failRes : StateDetectionResult := ⟨none, 0, .unknown, input.extractedData⟩
  match fetchRes with
  | .error _ => failRes
  | .ok resp =>
    if !resp.ok then failRes
    else
      match resp.json.stateCode with
      | none => failRes
      | some sc =>
        if sc = "" then failRes
        else if (usLookup (sToUpper sc)).isSome then
          ⟨some (sToUpper sc), clampConfidence resp.json.confidence, .documentType,
            { input.extractedData with llmReasoning := resp.json.reasoning }⟩
        else failRes

/-- `detectStateFromDocument` — direct field, then address parse, then LLM
fallback, each returning early on a detected state. -/
def detectStateFromDocument (fetchRes : LlmFetch) (input : StateDetectionInput) :
    StateDetectionResult :=
  let direct := extractDirectStateField input.extractedData
  if direct.detectedState.isSome then direct
  else
    let addr := extractStateFromAddresses input.extractedData
    if addr.detectedState.isSome then addr
    else
      let llm := detectStateUsingLLM fetchRes input
      if llm.detectedState.isSome then llm
      else ⟨none, 0, .unknown, input.extractedData⟩

/-!
## Persistence model

Records mirror the Prisma entities as far as the embedded handlers observe
them.  Timestamps are abstract naturals (`new Date()` is the handler's `now`
parameter).
-/
inductive PStatus where
  | pending
  | processing
  | completed
  | failed
deriving DecidableEq, Repr

/-- The persisted `stateSource` enum of the tax return. -/
inductive StateSourceEnum where
  | sAddress
  | sEmployer
  | sDocumentType
  | sManual
  | sUnknown
deriving DecidableEq, Repr

structure UserRec where
  id : ℕ
  email : String
deriving DecidableEq, Repr

structure Document where
  id : ℕ
  taxReturnId : ℕ
  fileName : String := ""
  documentType : String
  processingStatus : PStatus
  filePath : String := ""
  extractedData : Option ExtractedData := none
  ocrText : Option String := none
  isVerified : Bool := false
  createdAt : ℕ := 0
  updatedAt : ℕ := 0
deriving DecidableEq, Repr

structure TaxReturn where
  id : ℕ
  userId : ℕ
  filingStatus : String := "SINGLE"
  totalIncome : ℚ := 0
  totalWithholdings : ℚ := 0
  adjustedGrossIncome : ℚ := 0
  standardDeduction : ℚ := 0
  itemizedDeduction : ℚ := 0
  taxableIncome : ℚ := 0
  taxLiability : ℚ := 0
  totalCredits : ℚ := 0
  refundAmount : ℚ := 0
  amountOwed : ℚ := 0
  stateTaxLiability : ℚ := 0
  stateStandardDeduction : ℚ := 0
  stateTaxableIncome : ℚ := 0
  stateEffectiveRate : ℚ := 0
  stateItemizedDeduction : ℚ := 0
  detectedState : Option String := none
  stateConfidence : Option ℚ := none
  stateSource : Option StateSourceEnum := none
  firstName : Option String := none
  lastName : Option String := none
  ssn : Option String := none
  address : Option String := none
  city : Option String := none
  state : Option String := none
  zipCode : Option String := none
  lastSavedAt : ℕ := 0
  updatedAt : ℕ := 0
deriving DecidableEq, Repr

structure IncomeEntry where
  id : ℕ
  taxReturnId : ℕ
  documentId : Option ℕ
  incomeType : String
  description : String := ""
  amount : ℚ
  employerName : String := ""
  employerEIN : String := ""
  payerName : String := ""
  payerTIN : String := ""
  federalTaxWithheld : Option ℚ := none
deriving DecidableEq, Repr

structure DependentRec where
  id : ℕ
  taxReturnId : ℕ
deriving DecidableEq, Repr

structure DocExtractedEntry where
  id : ℕ
  documentId : ℕ
deriving DecidableEq, Repr

structure Db where
  users : List UserRec := []
  documents : List Document := []
  incomeEntries : List IncomeEntry := []
  taxReturns : List TaxReturn := []
  dependents : List DependentRec := []
  documentExtractedEntries : List DocExtractedEntry := []
deriving DecidableEq, Repr

/-!
## Document DELETE handler (src/app/api/documents/[id]/route.ts lines 47-149)
-/
inductive DelResp where
  | unauthorized
  | userNotFound
  | documentNotFound
  | delSuccess
deriving DecidableEq, Repr

/--
The DELETE handler: auth, ownership check, then one transaction that deletes
the document's income entries, its extracted entries and the document itself,
recomputes the owning tax return's totals from the remaining entries with a
non-null document reference, and zeroes the downstream calculated fields.
-/
def deleteDocumentHD (db : Db) (sessionEmail : Option String) (docId : ℕ)
    (now : ℕ) : DelResp × Db :=
  match sessionEmail with
  | none => (.unauthorized, db)
  | some em =>
    match db.users.find? (fun u => u.email = em) with
    | none => (.userNotFound, db)
    | some user =>
      match db.documents.find? (fun d => d.id = docId) with
      | none => (.documentNotFound, db)
      | some doc =>
        match db.taxReturns.find? (fun t => t.id = doc.taxReturnId) with
        | none => (.documentNotFound, db)
        | some tr =>
          if tr.userId ≠ user.id then (.documentNotFound, db)
          else
            let entries1 := db.incomeEntries.filter (fun e => e.documentId ≠ some docId)
            let dee1 := db.documentExtractedEntries.filter (fun e => e.documentId ≠ docId)
            let docs1 := db.documents.filter (fun d => d.id ≠ docId)
            let remaining := entries1.filter
              (fun e => e.taxReturnId = tr.id ∧ e.documentId.isSome)
            let newTotalIncome := remaining.foldl (fun sum e => sum + e.amount) 0
            let newTotalWithholdings :=
              remaining.foldl (fun sum e => sum + e.federalTaxWithheld.getD 0) 0
            let trs1 := db.taxReturns.map (fun t =>
              if t.id = doc.taxReturnId then
                { t with
                    totalIncome := newTotalIncome
                    totalWithholdings := newTotalWithholdings
                    adjustedGrossIncome := newTotalIncome
                    taxableIncome := 0
                    taxLiability := 0
                    stateTaxLiability := 0
                    refundAmount := 0
                    amountOwed := 0
                    lastSavedAt := now
                    updatedAt := now }
              else t)
            (.delSuccess,
              { db with
                  incomeEntries := entries1
                  documentExtractedEntries := dee1
                  documents := docs1
                  taxReturns := trs1 })

/-!
## Document processing pipeline (src/unnamed/part_000, POST handler)

External collaborators are fields of `PipelineEnv`:
  * `extraction` — the Azure OCR call (`Except.error` = thrown service error);
  * `llmFetch` — the classifier transport used inside state detection;
  * `duplicateCheck` — `DuplicateDetectionService.checkForDuplicates`;
  * `w2Mapper` / `f1099Mapper` — the form mappers (their modules are not in
    the sources; only their results are observed);
  * `federalCalc` — the federal calculator of the missing
    `tax-calculations.ts`, feeding `calculateEnhancedTaxReturnWithState`;
  * `parseFloatJs` — the JS `parseFloat` builtin.
Database reads and writes are pure operations on `Db` and cannot fail in the
model; `now` stands for `new Date()` / `Date.now()`.
-/

/-- `categorizeError` (part_000 lines 621-647): keyword search over the
lower-cased error message. -/
def categorizeError (msg : String) : String :=
  let m := sToLower msg
  if containsSubstr m "azure" || containsSubstr m "document intelligence" then "EXTRACTION_ERROR"
  else if containsSubstr m "database" || containsSubstr m "prisma" then "DATABASE_ERROR"
  else if containsSubstr m "state detection" then "STATE_DETECTION_ERROR"
  else if containsSubstr m "duplicate" then "DUPLICATE_DETECTION_ERROR"
  else if containsSubstr m "tax calculation" then "CALCULATION_ERROR"
  else if containsSubstr m "mapping" then "MAPPING_ERROR"
  else if containsSubstr m "authentication" || containsSubstr m "unauthorized" then "AUTH_ERROR"
  else "UNKNOWN_ERROR"

/-- `mapStateDetectionSourceToEnum` (part_000 lines 583-591).  The source
union has no `manual` value, so that switch case is unreachable here. -/
def mapStateDetectionSourceToEnum : DetectionSource → StateSourceEnum
  | .address => .sAddress
  | .employer => .sEmployer
  | .documentType => .sDocumentType
  | .unknown => .sUnknown

/-- `getIncomeAmountFromForm1099` (part_000 lines 535-553). -/
def getIncomeAmountFromForm1099 (pf : String → Option ℚ) (ex : ExtractedData)
    (documentType : String) : ℚ :=
  if documentType = "FORM_1099_INT" then parseAmount pf ex.interestIncome
  else if documentType = "FORM_1099_DIV" then parseAmount pf ex.ordinaryDividends
  else if documentType = "FORM_1099_MISC" then
    max (max (parseAmount pf ex.rents) (parseAmount pf ex.royalties))
      (max (parseAmount pf ex.otherIncome) (parseAmount pf ex.nonemployeeCompensation))
  else if documentType = "FORM_1099_NEC" then parseAmount pf ex.nonemployeeCompensation
  else 0

/-- `mapDocumentTypeToIncomeType` (part_000 lines 556-568). -/
def mapDocumentTypeToIncomeType (documentType : String) : String :=
  if documentType = "FORM_1099_INT" then "INTEREST"
  else if documentType = "FORM_1099_DIV" then "DIVIDENDS"
  else if documentType = "FORM_1099_MISC" || documentType = "FORM_1099_NEC" then "BUSINESS_INCOME"
  else "OTHER_INCOME"

/-- Result of the external duplicate-detection service. -/
structure DuplicateCheckResult where
  isDuplicate : Bool
  confidence : ℚ := 0
  matchingDocuments : List ℕ := []
deriving DecidableEq, Repr

/-- Personal-info fields produced by the (external) form mappers. -/
structure Form1040Mapping where
  firstName : Option String := none
  lastName : Option String := none
  ssn : Option String := none
  address : Option String := none
  city : Option String := none
  state : Option String := none
  zipCode : Option String := none
deriving DecidableEq, Repr

/-- The `updatedTaxReturnData` personal block (part_000 lines 290-300):
`form1040Mapping.field || currentTaxReturn.field` for each field. -/
structure PersonalSet where
  firstName : Option String
  lastName : Option String
  ssn : Option String
  address : Option String
  city : Option String
  state : Option String
  zipCode : Option String
deriving DecidableEq, Repr

def mkPersonalSet (m : Form1040Mapping) (cur : TaxReturn) : PersonalSet :=
  { firstName := jsOrOpt m.firstName cur.firstName
    lastName := jsOrOpt m.lastName cur.lastName
    ssn := jsOrOpt m.ssn cur.ssn
    address := jsOrOpt m.address cur.address
    city := jsOrOpt m.city cur.city
    state := jsOrOpt m.state cur.state
    zipCode := jsOrOpt m.zipCode cur.zipCode }

structure PipelineEnv where
  sessionEmail : Option String := none
  azureConfigured : Bool := true
  extraction : Except String ExtractedData := .error "extraction unavailable"
  llmFetch : LlmFetch := .error ()
  duplicateCheck : Except String DuplicateCheckResult := .error "duplicate service unavailable"
  w2Mapper : Except String Form1040Mapping := .error "mapper unavailable"
  f1099Mapper : Except String Form1040Mapping := .error "mapper unavailable"
  federalCalc : Except String FederalPart := .error "tax calculation unavailable"
  stateDb : String → Option StateTaxInfo := fun _ => none
  parseFloatJs : String → Option ℚ := fun _ => none
  freshEntryId : ℕ := 1000
  now : ℕ := 0

/-- Replace the stored row with the given document record (prisma update). -/
def setDoc (db : Db) (d : Document) : Db :=
  { db with documents := db.documents.map (fun x => if x.id = d.id then d else x) }

/-- Best-effort `processingStatus := FAILED` update of the fatal catch. -/
def markFailed (db : Db) (docId now : ℕ) : Db :=
  { db with documents := db.documents.map (fun x =>
      if x.id = docId then { x with processingStatus := .failed, updatedAt := now } else x) }

/-- Payload of the already-COMPLETED short-circuit (part_000 lines 78-105):
built from the persisted document and tax-return fields only. -/
structure CompletedPayload where
  documentId : ℕ
  extractedData : Option ExtractedData
  ocrText : Option String
  processingStatus : PStatus
  documentType : String
  fileName : String
  detectedState : Option String
  stateConfidence : Option ℚ
  stateSource : Option StateSourceEnum
  totalIncome : ℚ
  adjustedGrossIncome : ℚ
  taxableIncome : ℚ
  taxLiability : ℚ
  stateTaxLiability : ℚ
  refundAmount : ℚ
  amountOwed : ℚ
  createdAt : ℕ
  updatedAt : ℕ
deriving DecidableEq, Repr

def mkCompletedPayload (doc : Document) (tr : TaxReturn) : CompletedPayload :=
  { documentId := doc.id
    extractedData := doc.extractedData
    ocrText := doc.ocrText
    processingStatus := doc.processingStatus
    documentType := doc.documentType
    fileName := doc.fileName
    detectedState := tr.detectedState
    stateConfidence := tr.stateConfidence
    stateSource := tr.stateSource
    totalIncome := tr.totalIncome
    adjustedGrossIncome := tr.adjustedGrossIncome
    taxableIncome := tr.taxableIncome
    taxLiability := tr.taxLiability
    stateTaxLiability := tr.stateTaxLiability
    refundAmount := tr.refundAmount
    amountOwed := tr.amountOwed
    createdAt := doc.createdAt
    updatedAt := doc.updatedAt }

/-- `generateSuggestedActions` (part_000 lines 594-618). -/
def generateSuggestedActions (dup : Option DuplicateCheckResult)
    (sdr : StateDetectionResult) (calcRes : Option EnhancedTaxCalculationResult) :
    List String :=
  let a1 := if (match dup with | some d => d.isDuplicate | none => false) then
      ["Review potential duplicate documents before proceeding"] else []
  let a2 := if sdr.confidence < 4/5 then
      ["Verify state information for accurate tax calculations"] else []
  let a3 := if (match calcRes with
      | some c => !c.fed.taxOptimizationSuggestions.isEmpty
      | none => false) then
      ["Review tax optimization suggestions to maximize savings"] else []
  let actions := a1 ++ a2 ++ a3
  if actions.isEmpty then ["Document processed successfully - review extracted data"]
  else actions

/-- The comprehensive success payload (part_000 lines 445-481). -/
structure SuccessPayload where
  documentId : ℕ
  extractedData : Option ExtractedData
  ocrText : Option String
  processingStatus : PStatus
  documentType : String
  fileName : String
  detectedState : Option String
  stateConfidence : Option ℚ
  stateSource : Option StateSourceEnum
  stateDetectionResult : StateDetectionResult
  taxCalculations : Option EnhancedTaxCalculationResult
  form1040Mapping : Option Form1040Mapping
  duplicateCheck : Option DuplicateCheckResult
  processedAt : ℕ
  processingTime : ℤ
  requiresManualReview : Bool
  suggestedActions : List String
deriving DecidableEq

inductive ProcResp where
  | unauthorized
  | userNotFound
  | documentNotFound
  | alreadyCompleted (p : CompletedPayload)
  | conflictProcessing
  | procSuccess (p : SuccessPayload)
  | procFailure (errorType : String)
deriving DecidableEq

/-- HTTP status code of each response shape. -/
def httpStatus : ProcResp → ℕ
  | .unauthorized => 401
  | .userNotFound => 404
  | .documentNotFound => 404
  | .alreadyCompleted _ => 200
  | .conflictProcessing => 409
  | .procSuccess _ => 200
  | .procFailure _ => 500

/--
Step 11 (Form 1040 mapping, part_000 lines 227-306).  The whole stage is in a
`try` whose `catch` continues the pipeline, so every failure inside (missing
tax return, throwing mapper) yields no income entry and no personal update.
Returns the possibly-extended database, the mapping result for the payload,
and the personal `updatedTaxReturnData` block.
-/
def mappingStage (ps : PipelineEnv) (db : Db) (docId trId : ℕ)
    (finalType : String) (ex : ExtractedData) :
    Db × Option Form1040Mapping × Option PersonalSet :=
  match db.taxReturns.find? (fun t => t.id = trId) with
  | none => (db, none, none)
  | some cur =>
    if finalType = "W2" then
      match ps.w2Mapper with
      | .error _ => (db, none, none)
      | .ok m =>
        let wagesAmount := parseAmount ps.parseFloatJs ex.wages
        let fedWithheld := parseAmount ps.parseFloatJs ex.federalTaxWithheld
        let db1 :=
          if 0 < wagesAmount then
            { db with incomeEntries := db.incomeEntries ++
                [{ id := ps.freshEntryId
                   taxReturnId := trId
                   documentId := some docId
                   incomeType := "W2_WAGES"
                   description := "W2 wages from " ++ jsOrStr ex.employerName "Employer"
                   amount := wagesAmount
                   employerName := jsOrStr ex.employerName ""
                   employerEIN := jsOrStr ex.employerEIN ""
                   federalTaxWithheld := some fedWithheld }] }
          else db
        (db1, some m, some (mkPersonalSet m cur))
    else if sStartsWith finalType "FORM_1099" then
      match ps.f1099Mapper with
      | .error _ => (db, none, none)
      | .ok m =>
        let incomeAmount := getIncomeAmountFromForm1099 ps.parseFloatJs ex finalType
        let db1 :=
          if 0 < incomeAmount then
            { db with incomeEntries := db.incomeEntries ++
                [{ id := ps.freshEntryId
                   taxReturnId := trId
                   documentId := some docId
                   incomeType := mapDocumentTypeToIncomeType finalType
                   description := finalType ++ " income from " ++ jsOrStr ex.payerName "Payer"
                   amount := incomeAmount
                   payerName := jsOrStr ex.payerName ""
                   payerTIN := jsOrStr ex.payerTIN "" }] }
          else db
        (db1, some m, some (mkPersonalSet m cur))
    else (db, none, none)

/--
Step 12 (tax calculation, part_000 lines 308-398): collect the income entries
whose document reference resolves to an existing document, purge the orphans
(`documentId = null`) of this tax return, sum the valid amounts, and run the
enhanced calculator.  The stage's `catch` continues the pipeline, so a
throwing (federal) calculation yields `none` — with the orphan purge already
applied.  Returns the cleaned database and, on success, the recomputed total
income with the calculation result.
-/
def calcStage (ps : PipelineEnv) (db : Db) (trId : ℕ) (tr0 : TaxReturn)
    (detectedStateCode : Option String) :
    Db × Option (ℚ × EnhancedTaxCalculationResult) :=
  let validIncomeEntries := db.incomeEntries.filter (fun e =>
    e.taxReturnId == trId &&
      (match e.documentId with
       | some d => (db.documents.find? (fun dd => dd.id = d)).isSome
       | none => false))
  let db1 := { db with incomeEntries := db.incomeEntries.filter (fun e =>
    !(e.taxReturnId == trId && e.documentId.isNone)) }
  let totalIncome := validIncomeEntries.foldl (fun sum e => sum + e.amount) 0
  let deps := db.dependents.filter (fun d => d.taxReturnId = trId)
  match calculateEnhancedTaxReturnWithState ps.stateDb ps.federalCalc
      { totalIncome := totalIncome
        filingStatus := tr0.filingStatus
        dependentsCount := deps.length
        itemizedDeductions := tr0.itemizedDeduction
        totalWithholdings := tr0.totalWithholdings
        stateCode := detectedStateCode
        stateItemizedDeductions := tr0.stateItemizedDeduction } with
  | .error _ => (db1, none)
  | .ok r => (db1, some (totalIncome, r))

/--
The tax-return update of step 13 (part_000 lines 416-438): the accumulated
`updatedTaxReturnData` (personal block from mapping, calculation block from
step 12), timestamps, and — only when this run detected a state — the
detected-state snapshot.
-/
def applyTaxReturnUpdate (tr : TaxReturn) (personal : Option PersonalSet)
    (calcs : Option (ℚ × EnhancedTaxCalculationResult))
    (sdr : StateDetectionResult) (now : ℕ) : TaxReturn :=
  let tr1 := match personal with
    | some p =>
      { tr with
          firstName := p.firstName
          lastName := p.lastName
          ssn := p.ssn
          address := p.address
          city := p.city
          state := p.state
          zipCode := p.zipCode }
    | none => tr
  let tr2 := match calcs with
    | some (totalIncome, r) =>
      { tr1 with
          totalIncome := totalIncome
          adjustedGrossIncome := r.fed.adjustedGrossIncome
          standardDeduction := r.fed.standardDeduction
          itemizedDeduction := r.fed.itemizedDeduction
          taxableIncome := r.fed.taxableIncome
          taxLiability := r.fed.taxLiability
          totalCredits := r.fed.totalCredits
          totalWithholdings := r.fed.totalWithholdings
          refundAmount := r.fed.refundAmount
          amountOwed := r.fed.amountOwed
          stateTaxLiability := optQ (r.stateTax.map (fun s : StateTaxCalculationResult => s.stateTaxLiability))
          stateStandardDeduction := optQ (r.stateTax.map (fun s : StateTaxCalculationResult => s.stateStandardDeduction))
          stateTaxableIncome := optQ (r.stateTax.map (fun s : StateTaxCalculationResult => s.stateTaxableIncome))
          stateEffectiveRate := optQ (r.stateTax.map (fun s : StateTaxCalculationResult => s.stateEffectiveRate)) }
    | none => tr1
  let tr3 := { tr2 with lastSavedAt := now, updatedAt := now }
  match sdr.detectedState with
  | some st =>
    { tr3 with
        detectedState := some st
        stateConfidence := some sdr.confidence
        stateSource := some (mapStateDetectionSourceToEnum sdr.source)
        state := some st }
  | none => tr3

/--
The POST process handler (src/unnamed/part_000 lines 15-532).  Returns the
response, the resulting database, and the list of external services invoked
(empty on every short-circuit).  The fatal `catch` marks the document FAILED
and classifies the thrown message (production branch of the error response).
-/
def processPost (ps : PipelineEnv) (db : Db) (docId : ℕ) :
    ProcResp × Db × List String :=
  match ps.sessionEmail with
  | none => (.unauthorized, db, [])
  | some em =>
    match db.users.find? (fun u => u.email = em) with
    | none => (.userNotFound, db, [])
    | some user =>
      match db.documents.find? (fun d => d.id = docId) with
      | none => (.documentNotFound, db, [])
      | some doc =>
        match db.taxReturns.find? (fun t => t.id = doc.taxReturnId) with
        | none => (.documentNotFound, db, [])
        | some tr =>
          if tr.userId ≠ user.id then (.documentNotFound, db, [])
          else if doc.processingStatus = .completed then
            (.alreadyCompleted (mkCompletedPayload doc tr), db, [])
          else if doc.processingStatus = .processing then
            (.conflictProcessing, db, [])
          else
            let doc1 := { doc with processingStatus := .processing, updatedAt := ps.now }
            let db1 := setDoc db doc1
            if !ps.azureConfigured then
              (.procFailure (categorizeError
                  "Azure Document Intelligence credentials not configured. Please contact support."),
                markFailed db1 docId ps.now, [])
            else
              match ps.extraction with
              | .error emsg =>
                (.procFailure (categorizeError ("Document extraction failed: " ++ emsg)),
                  markFailed db1 docId ps.now, ["azure_extraction"])
              | .ok ex =>
                let finalType := ex.correctedDocumentType.getD doc.documentType
                let doc2 := match ex.correctedDocumentType with
                  | some t => { doc1 with documentType := t }
                  | none => doc1
                let db2 := match ex.correctedDocumentType with
                  | some _ => setDoc db1 doc2
                  | none => db1
                let sdr := detectStateFromDocument ps.llmFetch
                  { documentType := finalType, extractedData := ex }
                let dup := ps.duplicateCheck.toOption
                let mres := mappingStage ps db2 docId doc.taxReturnId finalType ex
                let db3 := mres.1
                let m1040 := mres.2.1
                let personal := mres.2.2
                let cres := calcStage ps db3 doc.taxReturnId tr sdr.detectedState
                let db4 := cres.1
                let calcs := cres.2
                let docFinal := { doc2 with
                  processingStatus := .completed
                  ocrText := ex.fullText
                  extractedData := some ex
                  documentType := finalType
                  isVerified := false
                  updatedAt := ps.now }
                let db5 := setDoc db4 docFinal
                let trFinal := applyTaxReturnUpdate tr personal calcs sdr ps.now
                let db6 := { db5 with taxReturns := db5.taxReturns.map (fun t =>
                  if t.id = doc.taxReturnId then
                    applyTaxReturnUpdate t personal calcs sdr ps.now
                  else t) }
                let payload : SuccessPayload :=
                  { documentId := docFinal.id
                    extractedData := docFinal.extractedData
                    ocrText := docFinal.ocrText
                    processingStatus := docFinal.processingStatus
                    documentType := docFinal.documentType
                    fileName := docFinal.fileName
                    detectedState := trFinal.detectedState
                    stateConfidence := trFinal.stateConfidence
                    stateSource := trFinal.stateSource
                    stateDetectionResult := sdr
                    taxCalculations := calcs.map (fun c => c.2)
                    form1040Mapping := m1040
                    duplicateCheck := dup
                    processedAt := ps.now
                    processingTime := (ps.now : ℤ) - (docFinal.createdAt : ℤ)
                    requiresManualReview :=
                      (match dup with | some d => d.isDuplicate | none => false)
                        || sdr.confidence < 4/5
                    suggestedActions :=
                      generateSuggestedActions dup sdr (calcs.map (fun c => c.2)) }
                (.procSuccess payload, db6,
                  ["azure_extraction", "state_detection", "duplicate_check"])

/-!
## Status stream (src/app/api/documents/[id]/status-stream/route.ts, GET)

The server-sent-event channel is modelled as the list of events it emits
before closing.  `polls i` is the result of the `i`-th `pollDocument`
invocation (a found document snapshot, a missing document, or a thrown
query error), and `nowAt i` is `Date.now()` during that invocation.  The
poll loop's recursion is bounded by explicit `fuel`; `none` models a run
that outlives the fuel (the error-retry branch does not advance
`pollCount`, so the TS loop as written has no intrinsic bound there).
-/
structure DocSnap where
  status : PStatus
  createdAt : ℕ := 0
  updatedAt : ℕ := 0
deriving DecidableEq, Repr

inductive PollOut where
  | found (d : DocSnap)
  | missing
  | qfail
deriving DecidableEq, Repr

inductive SseEvent where
  | connected (initialStatus : PStatus)
  | statusUpdate (status : PStatus) (pollCount : ℕ) (progress : Option ℕ) (message : Option String)
  | completedEv
  | errorEv (message : String)
  | timeoutEv
deriving DecidableEq, Repr

/-- Progress while PROCESSING: `Math.min(95, Math.floor(elapsed / 300000 * 100))`. -/
def processingProgress (elapsed : ℕ) : ℕ := min 95 (elapsed * 100 / 300000)

/-- The elapsed-time-bucketed progress message while PROCESSING. -/
def processingMessage (elapsed : ℕ) : String :=
  if elapsed < 60000 then "Starting document analysis with Azure AI..."
  else if elapsed < 180000 then "Extracting text and identifying form fields..."
  else if elapsed < 300000 then "Processing tax information and validating data..."
  else "Finalizing extraction and performing quality checks..."

/--
`pollDocument` (status-stream route lines 65-221).  Emits per iteration:
terminal `status_update` + `completed` on COMPLETED, `error` on FAILED or a
missing document, a progress `status_update` otherwise; then increments
`pollCount`, continuing below 300 polls and emitting a single `timeout`
before closing at the bound.  A query error emits an `error` event and
retries while `pollCount < 10`, else closes.
-/
def pollLoop (polls : ℕ → PollOut) (nowAt : ℕ → ℕ) :
    ℕ → ℕ → ℕ → Option (List SseEvent)
  | 0, _, _ => none
  | fuel + 1, i, pollCount =>
    match polls i with
    | .missing => some [.errorEv "Document not found"]
    | .qfail =>
      if pollCount < 10 then
        (pollLoop polls nowAt fuel (i + 1) pollCount).map
          (fun t => .errorEv "Error checking document status" :: t)
      else some [.errorEv "Error checking document status"]
    | .found d =>
      match d.status with
      | .completed =>
        some [.statusUpdate .completed (pollCount + 1) none none, .completedEv]
      | .failed => some [.errorEv "Document processing failed"]
      | .processing =>
        let elapsed := nowAt i - d.updatedAt
        let ev := SseEvent.statusUpdate .processing (pollCount + 1)
          (some (processingProgress elapsed)) (some (processingMessage elapsed))
        if pollCount + 1 < 300 then
          (pollLoop polls nowAt fuel (i + 1) (pollCount + 1)).map (fun t => ev :: t)
        else some [ev, .timeoutEv]
      | .pending =>
        let ev := SseEvent.statusUpdate .pending (pollCount + 1) none none
        if pollCount + 1 < 300 then
          (pollLoop polls nowAt fuel (i + 1) (pollCount + 1)).map (fun t => ev :: t)
        else some [ev, .timeoutEv]

/-- The full channel: the immediate `connected` event, then the poll loop. -/
def statusStream (initialStatus : PStatus) (polls : ℕ → PollOut)
    (nowAt : ℕ → ℕ) (fuel : ℕ) : Option (List SseEvent) :=
  (pollLoop polls nowAt fuel 0 0).map (fun t => .connected initialStatus :: t)

/-!
## Claim-hypothesis predicates (tier-failure conditions of the state detector)
-/

/-- A direct state field that fails tier 1: absent, empty, or not a valid
2-letter state/DC code after trimming and upper-casing. -/
def directFieldFails (v : Option String) : Bool :=
  match v with
  | none => true
  | some s => s = "" || (usLookup (sToUpper (sTrim s))).isNone

/-- An address field that fails tier 2: absent, empty, or matching no
pattern that resolves to a known state. -/
def addressFieldFails (v : Option String) : Bool :=
  match v with
  | none => true
  | some a => a = "" || (parseStateFromAddress a).isNone

/-- Tier-3 failure: the classifier transport throws, the response is not ok,
or the returned code is missing, empty or invalid. -/
def llmFails (fr : LlmFetch) : Bool :=
  match fr with
  | .error _ => true
  | .ok resp =>
    !resp.ok ||
      (match resp.json.stateCode with
       | none => true
       | some sc => sc = "" || (usLookup (sToUpper sc)).isNone)

/-!
## Helper lemmas
-/

theorem foldl_add_eq_sum {α : Type} (f : α → ℚ) :
    ∀ (l : List α) (a : ℚ), l.foldl (fun s e => s + f e) a = a + (l.map f).sum := by
  intro l
  induction l with
  | nil => intro a; simp
  | cons x xs ih => intro a; simp [ih, add_assoc]

theorem round2_zero : round2 0 = 0 := by
  norm_num [round2, jround]

theorem bracketTax_eq_marginalTaxSpec (I : ℚ) :
    ∀ bs : List TaxBracket, bs.Pairwise (fun a b => a.min ≤ b.min) →
      bracketTax bs I = marginalTaxSpec bs I := by
  intro bs
  induction bs with
  | nil => intro _; simp [bracketTax, marginalTaxSpec]
  | cons b rest ih =>
    intro hp
    rw [List.pairwise_cons] at hp
    obtain ⟨hb, hp'⟩ := hp
    by_cases h : I ≤ b.min
    · have hfilter : (b :: rest).filter (fun x => decide (x.min < I)) = [] := by
        rw [List.filter_eq_nil_iff]
        intro a ha
        rcases List.mem_cons.mp ha with rfl | hmem
        · simpa using not_lt.mpr h
        · simpa using not_lt.mpr (le_trans h (hb a hmem))
      simp [bracketTax, h, marginalTaxSpec, hfilter]
    · have hlt : b.min < I := lt_of_not_le h
      simp only [bracketTax, if_neg h, marginalTaxSpec, List.filter_cons,
        decide_eq_true_eq, hlt, if_pos, List.map_cons, List.sum_cons]
      rw [ih hp']
      rfl

theorem validStateOf_of_fails {v : Option String}
    (h : directFieldFails v = true) : validStateOf v = none := by
  cases v with
  | none => rfl
  | some s =>
    simp only [directFieldFails, Bool.or_eq_true, decide_eq_true_eq,
      Option.isNone_iff_eq_none] at h
    rcases h with h | h
    · simp [validStateOf, h]
    · simp [validStateOf, h]

theorem addressStateOf_of_fails {v : Option String}
    (h : addressFieldFails v = true) : addressStateOf v = none := by
  cases v with
  | none => rfl
  | some a =>
    simp only [addressFieldFails, Bool.or_eq_true, decide_eq_true_eq,
      Option.isNone_iff_eq_none] at h
    rcases h with h | h
    · simp [addressStateOf, h]
    · simp [addressStateOf, h]

theorem detectStateUsingLLM_of_fails {fr : LlmFetch} (input : StateDetectionInput)
    (h : llmFails fr = true) :
    detectStateUsingLLM fr input = ⟨none, 0, .unknown, input.extractedData⟩ := by
  match fr with
  | .error _ => rfl
  | .ok resp =>
    simp only [llmFails, Bool.or_eq_true, Bool.not_eq_true'] at h
    rcases h with h | h
    · simp [detectStateUsingLLM, h]
    · match hsc : resp.json.stateCode with
      | none =>
        simp [detectStateUsingLLM, hsc]
      | some sc =>
        rw [hsc] at h
        simp only [Bool.or_eq_true, decide_eq_true_eq,
          Option.isNone_iff_eq_none] at h
        rcases h with h | h
        · simp [detectStateUsingLLM, hsc, h]
        · simp [detectStateUsingLLM, hsc, h]

/-!
## Claim theorems
-/

/--
Claim C10: `parseAmount` is total and never yields NaN: null/undefined, a NaN
number, booleans, objects and arrays all map to 0, and an unparseable string
(one on which `parseFloat` returns NaN) maps to 0 — so every amount it feeds
into income entries and totals is a genuine rational.  Totality is inherent:
the Lean codomain ℚ has no NaN, and every `JsValue` constructor is covered.
-/
theorem parseAmount_total_C10 (pf : String → Option ℚ) :
    (∀ b, parseAmount pf (.jbool b) = 0) ∧ parseAmount pf .jobj = 0 ∧
    parseAmount pf .jarr = 0 ∧ parseAmount pf .jnan = 0 ∧
    parseAmount pf .jnull = 0 ∧ parseAmount pf .jundef = 0 ∧
    (∀ s, pf (cleanAmount s) = none → parseAmount pf (.jstr s) = 0) := by
  refine ⟨fun b => rfl, rfl, rfl, rfl, rfl, rfl, fun s h => ?_⟩
  simp [parseAmount, h]

/-- Witness for C10 at concrete inputs. -/
theorem parseAmount_total_C10_witness :
    parseAmount (fun _ => none) (.jbool true) = 0 ∧
    parseAmount (fun _ => none) (.jstr "abc") = 0 :=
  ⟨(parseAmount_total_C10 (fun _ => none)).1 true,
   (parseAmount_total_C10 (fun _ => none)).2.2.2.2.2.2 "abc" rfl⟩

/--
Claim C5: for every state with `hasIncomeTax = false` and every input,
`calculateStateTax` succeeds and returns liability 0, effective rate 0 and
taxable income 0, regardless of income.
-/
theorem calculateStateTax_noIncomeTax_C5 (lookup : String → Option StateTaxInfo)
    (data : StateTaxData) (info : StateTaxInfo)
    (hfound : lookup data.stateCode = some info)
    (hno : info.hasIncomeTax = false) :
    ∃ r, calculateStateTax lookup data = .ok r ∧ r.stateTaxLiability = 0 ∧
      r.stateEffectiveRate = 0 ∧ r.stateTaxableIncome = 0 := by
  unfold calculateStateTax
  simp only [hfound, hno]
  exact ⟨_, rfl, rfl, rfl, rfl⟩

/-- A no-income-tax state entry used by the C5 witness. -/
def txInfo : StateTaxInfo :=
  { stateCode := "TX"
    stateName := "Texas"
    hasIncomeTax := false
    brackets := fun _ => none
    standardDeduction :=
      { single := 0, marriedFilingJointly := 0, marriedFilingSeparately := 0,
        headOfHousehold := 0, qualifyingSurvivingSpouse := none }
    personalExemption := none
    notes := some "Texas has no state income tax" }

/-- Witness for C5: Texas, a large income and nonzero deductions/dependents. -/
theorem calculateStateTax_noIncomeTax_C5_witness :
    ∃ r, calculateStateTax (fun sc => if sc = "TX" then some txInfo else none)
        { adjustedGrossIncome := 999999, filingStatus := "MARRIED_FILING_JOINTLY",
          stateCode := "TX", stateItemizedDeductions := 12345, dependentsCount := 3 }
        = .ok r ∧
      r.stateTaxLiability = 0 ∧ r.stateEffectiveRate = 0 ∧ r.stateTaxableIncome = 0 :=
  calculateStateTax_noIncomeTax_C5 _ _ txInfo rfl rfl

/--
Claim C6: when the state-tax calculation throws (for example, an unsupported
state code), `calculateEnhancedTaxReturnWithState` does not throw and does not
fail the computation: it returns the federal-only result with a suggestion
note naming the failed state appended, and with no `stateTax` and no
`combinedTaxResult` set.
-/
theorem enhancedWithState_stateFailure_C6 (lookup : String → Option StateTaxInfo)
    (fed : FederalPart) (data : EnhancedTaxData) (sc : String) (e : String)
    (hsc : data.stateCode = some sc)
    (hthrow : calculateCombinedTax lookup
      { adjustedGrossIncome := fed.adjustedGrossIncome
        federalTaxableIncome := fed.taxableIncome
        federalTaxLiability := fed.taxLiability
        federalEffectiveRate := fed.effectiveRate
        federalMarginalRate := fed.marginalRate
        filingStatus := data.filingStatus
        stateCode := sc
        stateItemizedDeductions := jsOrQ data.stateItemizedDeductions data.itemizedDeductions
        dependentsCount := data.dependentsCount
        totalCredits := fed.totalCredits
        totalWithholdings := fed.totalWithholdings } = .error e) :
    calculateEnhancedTaxReturnWithState lookup (.ok fed) data =
      .ok { fed := { fed with
              taxOptimizationSuggestions := fed.taxOptimizationSuggestions
                ++ ["⚠️ State tax calculation failed for " ++ sc
                      ++ ". Showing federal taxes only."] }
            stateTax := none
            combinedTaxResult := none } := by
  unfold calculateEnhancedTaxReturnWithState
  simp only [hsc, hthrow]

/-- A concrete federal result for the C6 witness. -/
def fedSample : FederalPart :=
  { totalIncome := 80000
    adjustedGrossIncome := 80000
    standardDeduction := 14600
    itemizedDeduction := 5000
    taxableIncome := 65400
    taxLiability := 9000
    totalCredits := 0
    totalWithholdings := 6000
    finalTax := 3000
    refundAmount := 0
    amountOwed := 3000
    effectiveRate := 11
    marginalRate := 22
    deductionComparison :=
      { standardDeduction := 14600, itemizedDeduction := 5000,
        standardTaxLiability := 9000, itemizedTaxLiability := 11000,
        recommendedMethod := "standard", taxSavings := 2000,
        effectiveStandardRate := 11, effectiveItemizedRate := 13 }
    taxOptimizationSuggestions := ["💡 The standard deduction saves you $2000 compared to itemizing"] }

/-- Witness for C6: an empty state table makes every state code unsupported,
so the state calculation throws; the result is the federal fallback. -/
theorem enhancedWithState_stateFailure_C6_witness :
    calculateEnhancedTaxReturnWithState (fun _ => none) (.ok fedSample)
      { totalIncome := 80000, filingStatus := "SINGLE", dependentsCount := 0,
        itemizedDeductions := 5000, totalWithholdings := 6000,
        stateCode := some "XX", stateItemizedDeductions := 0 } =
    .ok { fed := { fedSample with
            taxOptimizationSuggestions := fedSample.taxOptimizationSuggestions
              ++ ["⚠️ State tax calculation failed for XX. Showing federal taxes only."] }
          stateTax := none
          combinedTaxResult := none } :=
  enhancedWithState_stateFailure_C6 (fun _ => none) fedSample _ "XX"
    "Unsupported state: XX" rfl rfl

/--
Claim C4: for every taxable income `I ≥ 0`, every filing status and every
state whose bracket table for the normalized filing status is ascending,
`calculateStateTaxLiability` returns the marginal (not cliff) accumulation —
the sum over all brackets with `bracket.min < I` of
`(min(I, bracket.max) - bracket.min) * rate`, rounded to cents; and for a
single flat-rate bracket `(min 0, max ∞, rate r)` it returns `round2 (I * r)`.
-/
theorem calculateStateTaxLiability_marginal_C4
    (lookup : String → Option StateTaxInfo) (I : ℚ) (fs sc : String)
    (info : StateTaxInfo) (bs : List TaxBracket)
    (hI : 0 ≤ I)
    (hfound : lookup sc = some info)
    (htax : info.hasIncomeTax = true)
    (hbr : info.brackets (normalizeFilingStatus fs) = some bs)
    (hasc : bs.Pairwise (fun a b => a.min ≤ b.min)) :
    calculateStateTaxLiability lookup I fs sc = round2 (marginalTaxSpec bs I) ∧
    (∀ r : ℚ, bs = [⟨0, none, r⟩] →
      calculateStateTaxLiability lookup I fs sc = round2 (I * r)) := by
  have hmain : calculateStateTaxLiability lookup I fs sc = round2 (marginalTaxSpec bs I) := by
    unfold calculateStateTaxLiability
    simp only [hfound, htax, hbr, Bool.not_true, Bool.false_eq_true, if_false]
    by_cases hemp : bs.isEmpty
    · rw [if_pos hemp]
      rw [List.isEmpty_iff] at hemp
      subst hemp
      simp [marginalTaxSpec, round2_zero]
    · rw [if_neg hemp, bracketTax_eq_marginalTaxSpec I bs hasc]
  refine ⟨hmain, fun r hflat => ?_⟩
  rw [hmain, hflat]
  rcases lt_or_eq_of_le hI with hpos | hzero
  · have : marginalTaxSpec [⟨0, none, r⟩] I = I * r := by
      simp [marginalTaxSpec, minCap, hpos]
    rw [this]
  · rw [← hzero]
    have : marginalTaxSpec [⟨0, none, r⟩] 0 = 0 := by
      simp [marginalTaxSpec]
    rw [this, zero_mul]

/-- A two-bracket ascending table used by the C4 witness. -/
def caBrackets : List TaxBracket := [⟨0, some 100, 1/10⟩, ⟨100, none, 1/5⟩]

/-- A state entry with the two-bracket table, for the C4 witness. -/
def caInfo : StateTaxInfo :=
  { stateCode := "CA"
    stateName := "California"
    hasIncomeTax := true
    brackets := fun st => if st = "single" then some caBrackets else none
    standardDeduction :=
      { single := 5202, marriedFilingJointly := 10404, marriedFilingSeparately := 5202,
        headOfHousehold := 10404, qualifyingSurvivingSpouse := none }
    personalExemption := some 144
    notes := none }

/-- Witness for C4: income 150 against the two-bracket table gives
`round2 (100 * 1/10 + 50 * 1/5) = 20`. -/
theorem calculateStateTaxLiability_marginal_C4_witness :
    (0 : ℚ) ≤ 150 ∧
    calculateStateTaxLiability (fun sc => if sc = "CA" then some caInfo else none)
      150 "single" "CA" = round2 (marginalTaxSpec caBrackets 150) ∧
    calculateStateTaxLiability (fun sc => if sc = "CA" then some caInfo else none)
      150 "single" "CA" = 20 := by
  have h := (calculateStateTaxLiability_marginal_C4
    (fun sc => if sc = "CA" then some caInfo else none) 150 "single" "CA"
    caInfo caBrackets (by norm_num) rfl rfl rfl
    (by simp [caBrackets, List.pairwise_cons])).1
  refine ⟨by norm_num, h, ?_⟩
  rw [h]
  norm_num [round2, jround, marginalTaxSpec, caBrackets, minCap]

/--
Claim C1: the DELETE transaction removes every income entry referencing the
deleted document, recomputes the owning tax return's `totalIncome` and
`totalWithholdings` as the sums of `amount` and `federalTaxWithheld` over the
remaining entries of that tax return with a non-null `documentId`, and zeroes
`taxableIncome`, `taxLiability`, `stateTaxLiability`, `refundAmount` and
`amountOwed`; the deleted document's amounts remain in no total, since no
entry of the resulting state references the deleted document.
-/
theorem deleteDocument_recompute_C1 (db : Db) (em : String) (docId now : ℕ)
    (user : UserRec) (doc : Document) (tr : TaxReturn)
    (hu : db.users.find? (fun u => u.email = em) = some user)
    (hd : db.documents.find? (fun d => d.id = docId) = some doc)
    (ht : db.taxReturns.find? (fun t => t.id = doc.taxReturnId) = some tr)
    (hown : tr.userId = user.id) :
    ∃ db', deleteDocumentHD db (some em) docId now = (.delSuccess, db') ∧
      (∀ e ∈ db'.incomeEntries, e.documentId ≠ some docId) ∧
      (∀ t ∈ db'.taxReturns, t.id = doc.taxReturnId →
        t.totalIncome = ((db'.incomeEntries.filter
            (fun e => e.taxReturnId = tr.id ∧ e.documentId.isSome)).map
            (fun e => e.amount)).sum ∧
        t.totalWithholdings = ((db'.incomeEntries.filter
            (fun e => e.taxReturnId = tr.id ∧ e.documentId.isSome)).map
            (fun e => e.federalTaxWithheld.getD 0)).sum ∧
        t.taxableIncome = 0 ∧ t.taxLiability = 0 ∧ t.stateTaxLiability = 0 ∧
        t.refundAmount = 0 ∧ t.amountOwed = 0) := by
  unfold deleteDocumentHD
  simp only [hu, hd, ht, hown, ne_eq, not_true_eq_false, if_false]
  refine ⟨_, rfl, ?_, ?_⟩
  · intro e he
    have := (List.mem_filter.mp he).2
    simpa using this
  · intro t hmem hid
    obtain ⟨t0, _, rfl⟩ := List.mem_map.mp hmem
    by_cases h0 : t0.id = doc.taxReturnId
    · simp only [if_pos h0]
      refine ⟨?_, ?_, trivial, trivial, trivial, trivial, trivial⟩
      · rw [foldl_add_eq_sum, zero_add]
      · rw [foldl_add_eq_sum, zero_add]
    · rw [if_neg h0] at hid ⊢
      exact absurd hid h0

/-- Concrete database for the C1 witness: one user, one tax return, two
documents, three income entries (two owned by the deleted document, one by
the surviving document). -/
def dbDel : Db :=
  { users := [⟨1, "user@example.com"⟩]
    documents :=
      [{ id := 5, taxReturnId := 10, fileName := "w2.pdf", documentType := "W2",
         processingStatus := .completed },
       { id := 6, taxReturnId := 10, fileName := "int.pdf", documentType := "FORM_1099_INT",
         processingStatus := .completed }]
    incomeEntries :=
      [{ id := 100, taxReturnId := 10, documentId := some 5, incomeType := "W2_WAGES",
         amount := 55000, federalTaxWithheld := some 6000 },
       { id := 101, taxReturnId := 10, documentId := some 5, incomeType := "W2_WAGES",
         amount := 1000, federalTaxWithheld := some 100 },
       { id := 102, taxReturnId := 10, documentId := some 6, incomeType := "INTEREST",
         amount := 250 }]
    taxReturns := [{ id := 10, userId := 1, totalIncome := 56250, taxLiability := 4000 }]
    dependents := []
    documentExtractedEntries := [⟨200, 5⟩] }

/-- Witness for C1: deleting document 5 from `dbDel`. -/
theorem deleteDocument_recompute_C1_witness :
    ∃ db', deleteDocumentHD dbDel (some "user@example.com") 5 99 = (.delSuccess, db') ∧
      (∀ e ∈ db'.incomeEntries, e.documentId ≠ some 5) ∧
      (∀ t ∈ db'.taxReturns, t.id = 10 →
        t.totalIncome = ((db'.incomeEntries.filter
            (fun e => e.taxReturnId = 10 ∧ e.documentId.isSome)).map
            (fun e => e.amount)).sum ∧
        t.totalWithholdings = ((db'.incomeEntries.filter
            (fun e => e.taxReturnId = 10 ∧ e.documentId.isSome)).map
            (fun e => e.federalTaxWithheld.getD 0)).sum ∧
        t.taxableIncome = 0 ∧ t.taxLiability = 0 ∧ t.stateTaxLiability = 0 ∧
        t.refundAmount = 0 ∧ t.amountOwed = 0) :=
  deleteDocument_recompute_C1 dbDel "user@example.com" 5 99
    ⟨1, "user@example.com"⟩
    { id := 5, taxReturnId := 10, fileName := "w2.pdf", documentType := "W2",
      processingStatus := .completed }
    { id := 10, userId := 1, totalIncome := 56250, taxLiability := 4000 }
    rfl rfl rfl rfl

/--
Claim C2: re-invoking the process endpoint on a document whose status is
already COMPLETED performs no external-service call and no write: the
database is returned unchanged, the call log is empty, and the 200 payload is
`mkCompletedPayload doc tr`, a function of the persisted document and
tax-return rows only.
-/
theorem processPost_completed_C2 (ps : PipelineEnv) (db : Db) (docId : ℕ)
    (em : String) (user : UserRec) (doc : Document) (tr : TaxReturn)
    (hs : ps.sessionEmail = some em)
    (hu : db.users.find? (fun u => u.email = em) = some user)
    (hd : db.documents.find? (fun d => d.id = docId) = some doc)
    (ht : db.taxReturns.find? (fun t => t.id = doc.taxReturnId) = some tr)
    (hown : tr.userId = user.id)
    (hst : doc.processingStatus = .completed) :
    processPost ps db docId = (.alreadyCompleted (mkCompletedPayload doc tr), db, []) ∧
    httpStatus (.alreadyCompleted (mkCompletedPayload doc tr)) = 200 := by
  constructor
  · unfold processPost
    simp only [hs, hu, hd, ht, hown, hst, ne_eq, not_true_eq_false, if_false, if_pos]
  · rfl

/-- A processing environment whose every external collaborator would be
observed if invoked (they are not, on the short-circuit paths). -/
def psIdle : PipelineEnv :=
  { sessionEmail := some "user@example.com" }

/-- Concrete database for the C2 witness: document 5 already COMPLETED. -/
def dbCompleted : Db :=
  { users := [⟨1, "user@example.com"⟩]
    documents :=
      [{ id := 5, taxReturnId := 10, fileName := "w2.pdf", documentType := "W2",
         processingStatus := .completed, ocrText := some "W-2 Wage and Tax Statement",
         extractedData := some { employeeState := some "CA" } }]
    taxReturns := [{ id := 10, userId := 1, totalIncome := 55000,
                     detectedState := some "CA", stateConfidence := some (95/100) }] }

/-- Witness for C2. -/
theorem processPost_completed_C2_witness :
    processPost psIdle dbCompleted 5 =
      (.alreadyCompleted (mkCompletedPayload
        { id := 5, taxReturnId := 10, fileName := "w2.pdf", documentType := "W2",
          processingStatus := .completed, ocrText := some "W-2 Wage and Tax Statement",
          extractedData := some { employeeState := some "CA" } }
        { id := 10, userId := 1, totalIncome := 55000,
          detectedState := some "CA", stateConfidence := some (95/100) }),
        dbCompleted, []) ∧
    httpStatus (.alreadyCompleted (mkCompletedPayload
        { id := 5, taxReturnId := 10, fileName := "w2.pdf", documentType := "W2",
          processingStatus := .completed, ocrText := some "W-2 Wage and Tax Statement",
          extractedData := some { employeeState := some "CA" } }
        { id := 10, userId := 1, totalIncome := 55000,
          detectedState := some "CA", stateConfidence := some (95/100) })) = 200 :=
  processPost_completed_C2 psIdle dbCompleted 5 "user@example.com"
    ⟨1, "user@example.com"⟩ _ _ rfl rfl rfl rfl rfl rfl

/--
Claim C3: a process request for a document whose status is PROCESSING is
rejected with HTTP 409 before any side effect: the database is unchanged and
no external service is called.
-/
theorem processPost_processing_conflict_C3 (ps : PipelineEnv) (db : Db) (docId : ℕ)
    (em : String) (user : UserRec) (doc : Document) (tr : TaxReturn)
    (hs : ps.sessionEmail = some em)
    (hu : db.users.find? (fun u => u.email = em) = some user)
    (hd : db.documents.find? (fun d => d.id = docId) = some doc)
    (ht : db.taxReturns.find? (fun t => t.id = doc.taxReturnId) = some tr)
    (hown : tr.userId = user.id)
    (hst : doc.processingStatus = .processing) :
    processPost ps db docId = (.conflictProcessing, db, []) ∧
    httpStatus .conflictProcessing = 409 := by
  constructor
  · unfold processPost
    simp only [hs, hu, hd, ht, hown, hst, ne_eq, not_true_eq_false, if_false, if_pos]
    rfl
  · rfl

/-- Concrete database for the C3 witness: document 5 currently PROCESSING. -/
def dbProcessing : Db :=
  { users := [⟨1, "user@example.com"⟩]
    documents :=
      [{ id := 5, taxReturnId := 10, fileName := "w2.pdf", documentType := "W2",
         processingStatus := .processing }]
    incomeEntries :=
      [{ id := 100, taxReturnId := 10, documentId := some 5, incomeType := "W2_WAGES",
         amount := 55000 }]
    taxReturns := [{ id := 10, userId := 1 }] }

/-- Witness for C3. -/
theorem processPost_processing_conflict_C3_witness :
    processPost psIdle dbProcessing 5 = (.conflictProcessing, dbProcessing, []) ∧
    httpStatus .conflictProcessing = 409 :=
  processPost_processing_conflict_C3 psIdle dbProcessing 5 "user@example.com"
    ⟨1, "user@example.com"⟩ _ _ rfl rfl rfl rfl rfl rfl

/-- With a throwing federal calculation, step 12 produces no calculation
result (the stage's catch swallows the error). -/
theorem calcStage_federal_error (ps : PipelineEnv) (db : Db) (trId : ℕ)
    (tr0 : TaxReturn) (osc : Option String) (msg : String)
    (h : ps.federalCalc = .error msg) :
    (calcStage ps db trId tr0 osc).2 = none := by
  unfold calcStage calculateEnhancedTaxReturnWithState
  rw [h]

/--
Claim C8 (amended): a failure of the federal tax calculation during document
processing is NOT fatal — the error is caught and logged, the pipeline
continues, the document is marked COMPLETED, and the 200 success payload
simply carries no tax-calculation result; no CALCULATION error is surfaced.
-/
theorem processPost_calcFailure_C8 (ps : PipelineEnv) (db : Db) (docId : ℕ)
    (em : String) (user : UserRec) (doc : Document) (tr : TaxReturn)
    (ex : ExtractedData) (msg : String)
    (hs : ps.sessionEmail = some em)
    (hu : db.users.find? (fun u => u.email = em) = some user)
    (hd : db.documents.find? (fun d => d.id = docId) = some doc)
    (ht : db.taxReturns.find? (fun t => t.id = doc.taxReturnId) = some tr)
    (hown : tr.userId = user.id)
    (hst : doc.processingStatus = .pending)
    (haz : ps.azureConfigured = true)
    (hex : ps.extraction = .ok ex)
    (hcalc : ps.federalCalc = .error msg) :
    ∃ p db', processPost ps db docId =
        (.procSuccess p, db', ["azure_extraction", "state_detection", "duplicate_check"]) ∧
      p.taxCalculations = none ∧
      p.processingStatus = .completed ∧
      httpStatus (.procSuccess p) = 200 ∧
      (∀ d ∈ db'.documents, d.id = docId → d.processingStatus = .completed) := by
  have hdocid : doc.id = docId := by
    have := List.find?_some hd
    simpa using this
  unfold processPost
  simp only [hs, hu, hd, ht, hown, hst, haz, hex, ne_eq, not_true_eq_false, if_false,
    Bool.not_true, reduceCtorEq, reduceIte]
  rw [calcStage_federal_error ps _ doc.taxReturnId tr _ msg hcalc]
  cases hcdt : ex.correctedDocumentType with
  | none =>
    simp only [hcdt]
    refine ⟨_, _, rfl, rfl, rfl, rfl, ?_⟩
    intro d hmem hid
    simp only [setDoc, List.mem_map] at hmem
    obtain ⟨x, hxmem, rfl⟩ := hmem
    by_cases hx : x.id = doc.id
    · simp [hx]
    · simp only [if_neg hx] at hid ⊢
      exact absurd (hid.trans hdocid.symm) hx
  | some ct =>
    simp only [hcdt]
    refine ⟨_, _, rfl, rfl, rfl, rfl, ?_⟩
    intro d hmem hid
    simp only [setDoc, List.mem_map] at hmem
    obtain ⟨x, hxmem, rfl⟩ := hmem
    by_cases hx : x.id = doc.id
    · simp [hx]
    · simp only [if_neg hx] at hid ⊢
      exact absurd (hid.trans hdocid.symm) hx

/-- Pipeline environment of the C8 counterexample: extraction succeeds, the
federal tax calculation throws. -/
def psC8 : PipelineEnv :=
  { sessionEmail := some "user@example.com"
    azureConfigured := true
    extraction := .ok {}
    llmFetch := .error ()
    duplicateCheck := .error "duplicate service down"
    w2Mapper := .error "mapper down"
    f1099Mapper := .error "mapper down"
    federalCalc := .error "Tax calculation failed: federal calculator error"
    now := 1234 }

/-- Database of the C8 counterexample: one PENDING document. -/
def dbC8 : Db :=
  { users := [⟨1, "user@example.com"⟩]
    documents := [{ id := 1, taxReturnId := 10, fileName := "doc.pdf",
                    documentType := "OTHER_TAX_DOCUMENT", processingStatus := .pending }]
    taxReturns := [{ id := 10, userId := 1 }] }

/--
Counterexample to claim C8 as stated: processing a document while the federal
tax calculation throws does NOT abort the pipeline — the handler answers
HTTP 200 (not a classified CALCULATION error) and the document ends
COMPLETED, not FAILED.
-/
theorem processPost_calcFailure_counterexample_C8 :
    psC8.federalCalc = .error "Tax calculation failed: federal calculator error" ∧
    httpStatus (processPost psC8 dbC8 1).1 = 200 ∧
    ((processPost psC8 dbC8 1).2.1.documents.map (fun d => d.processingStatus))
      = [.completed] :=
  ⟨rfl, rfl, rfl⟩

/-- Witness for the amended C8 at the counterexample's input. -/
theorem processPost_calcFailure_C8_witness :
    ∃ p db', processPost psC8 dbC8 1 =
        (.procSuccess p, db', ["azure_extraction", "state_detection", "duplicate_check"]) ∧
      p.taxCalculations = none ∧
      p.processingStatus = .completed ∧
      httpStatus (.procSuccess p) = 200 ∧
      (∀ d ∈ db'.documents, d.id = 1 → d.processingStatus = .completed) :=
  processPost_calcFailure_C8 psC8 dbC8 1 "user@example.com" ⟨1, "user@example.com"⟩
    { id := 1, taxReturnId := 10, fileName := "doc.pdf",
      documentType := "OTHER_TAX_DOCUMENT", processingStatus := .pending }
    { id := 10, userId := 1 } {} "Tax calculation failed: federal calculator error"
    rfl rfl rfl rfl rfl rfl rfl rfl rfl

/-- Poll-loop invariant for a document that stays PROCESSING while every poll
succeeds: starting `n` polls before the bound, the loop emits exactly `n`
processing `status_update` events followed by a single `timeout`, then ends. -/
theorem pollLoop_processing (polls : ℕ → PollOut) (nowAt : ℕ → ℕ)
    (h : ∀ i, ∃ d, polls i = .found d ∧ d.status = .processing) :
    ∀ n i c, c + n = 300 → 0 < n →
      ∃ us, pollLoop polls nowAt (n + 1) i c = some (us ++ [.timeoutEv]) ∧
        us.length = n ∧
        ∀ e ∈ us, ∃ pc p m, e = SseEvent.statusUpdate .processing pc p m := by
  intro n
  induction n with
  | zero => intro i c _ h0; exact absurd h0 (lt_irrefl 0)
  | succ m ih =>
    intro i c hc _
    obtain ⟨d, hpi, hst⟩ := h i
    by_cases hm : m = 0
    · subst hm
      have hc299 : c = 299 := by omega
      subst hc299
      refine ⟨[SseEvent.statusUpdate .processing 300
          (some (processingProgress (nowAt i - d.updatedAt)))
          (some (processingMessage (nowAt i - d.updatedAt)))], ?_, rfl, ?_⟩
      · conv_lhs => rw [pollLoop]
        simp only [hpi, hst]
        norm_num
      · intro e he
        simp only [List.mem_singleton] at he
        exact ⟨300, _, _, he⟩
    · have hmpos : 0 < m := Nat.pos_of_ne_zero hm
      have hc' : (c + 1) + m = 300 := by omega
      obtain ⟨us, hrec, hlen, hsh⟩ := ih (i + 1) (c + 1) hc' hmpos
      refine ⟨SseEvent.statusUpdate .processing (c + 1)
          (some (processingProgress (nowAt i - d.updatedAt)))
          (some (processingMessage (nowAt i - d.updatedAt))) :: us, ?_, ?_, ?_⟩
      · have hclt : c + 1 < 300 := by omega
        conv_lhs => rw [pollLoop]
        simp only [hpi, hst, if_pos hclt, hrec, Option.map_some]
        rfl
      · simp [hlen]
      · intro e he
        rcases List.mem_cons.mp he with rfl | hmem
        · exact ⟨c + 1, _, _, rfl⟩
        · exact hsh e hmem

/--
Claim C9: a status channel on a document that stays PROCESSING while every
poll succeeds emits, after its `connected` event and 300 `status_update`
polls, exactly one `timeout` event and then closes: the trace ends at the
`timeout` and every earlier post-`connected` event is a processing
`status_update` (so no event of any type follows the `timeout`).
-/
theorem statusStream_timeout_C9 (polls : ℕ → PollOut) (nowAt : ℕ → ℕ)
    (init : PStatus)
    (h : ∀ i, ∃ d, polls i = .found d ∧ d.status = .processing) :
    ∃ us, statusStream init polls nowAt 301 =
        some (.connected init :: (us ++ [.timeoutEv])) ∧
      us.length = 300 ∧
      (∀ e ∈ us, ∃ pc p m, e = SseEvent.statusUpdate .processing pc p m) := by
  obtain ⟨us, heq, hlen, hsh⟩ :=
    pollLoop_processing polls nowAt h 300 0 0 rfl (by norm_num)
  exact ⟨us, by simp [statusStream, heq], hlen, hsh⟩

/-- Witness for C9: constant PROCESSING snapshots, constant clock. -/
theorem statusStream_timeout_C9_witness :
    ∃ us, statusStream .processing (fun _ => .found ⟨.processing, 0, 0⟩)
        (fun _ => 0) 301 =
        some (.connected .processing :: (us ++ [.timeoutEv])) ∧
      us.length = 300 ∧
      (∀ e ∈ us, ∃ pc p m, e = SseEvent.statusUpdate .processing pc p m) :=
  statusStream_timeout_C9 (fun _ => .found ⟨.processing, 0, 0⟩) (fun _ => 0)
    .processing (fun _ => ⟨⟨.processing, 0, 0⟩, rfl, rfl⟩)

/--
Claim C7: when all three detection tiers fail — no direct state field holds a
valid code after trimming and upper-casing, no address field matches a
pattern resolving to a known state, and the classifier call fails or returns
an invalid code — `detectStateFromDocument` returns confidence 0, source
`unknown` and no detected state.  It cannot throw: the classifier tier is
total (`detectStateUsingLLM` folds every transport and parse failure into the
no-state result), and so is the whole embedding.
-/
theorem detectState_allTiersFail_C7 (fr : LlmFetch) (input : StateDetectionInput)
    (h1a : directFieldFails input.extractedData.employeeState = true)
    (h1b : directFieldFails input.extractedData.employerState = true)
    (h1c : directFieldFails input.extractedData.recipientState = true)
    (h1d : directFieldFails input.extractedData.payerState = true)
    (h2a : addressFieldFails input.extractedData.employeeAddress = true)
    (h2b : addressFieldFails input.extractedData.recipientAddress = true)
    (h2c : addressFieldFails input.extractedData.employerAddress = true)
    (h2d : addressFieldFails input.extractedData.payerAddress = true)
    (h3 : llmFails fr = true) :
    detectStateFromDocument fr input =
      ⟨none, 0, .unknown, input.extractedData⟩ := by
  have hdirect : extractDirectStateField input.extractedData =
      ⟨none, 0, .unknown, input.extractedData⟩ := by
    unfold extractDirectStateField
    rw [validStateOf_of_fails h1a, validStateOf_of_fails h1b,
      validStateOf_of_fails h1c, validStateOf_of_fails h1d]
  have haddr : extractStateFromAddresses input.extractedData =
      ⟨none, 0, .unknown, input.extractedData⟩ := by
    unfold extractStateFromAddresses
    rw [addressStateOf_of_fails h2a, addressStateOf_of_fails h2b,
      addressStateOf_of_fails h2c, addressStateOf_of_fails h2d]
  have hllm := detectStateUsingLLM_of_fails input h3
  unfold detectStateFromDocument
  rw [hdirect, haddr, hllm]
  rfl

/-- Witness input for C7: an invalid direct state code, an address matching
no pattern, and a failing classifier transport (spec scenario C). -/
def inputC7 : StateDetectionInput :=
  { documentType := "W2"
    extractedData := { employeeState := some "ZZ", employeeAddress := some "123 Anywhere" } }

/-- Witness for C7. -/
theorem detectState_allTiersFail_C7_witness :
    detectStateFromDocument (.error ()) inputC7 =
      ⟨none, 0, .unknown, inputC7.extractedData⟩ :=
  detectState_allTiersFail_C7 (.error ()) inputC7
    (by decide) rfl rfl rfl (by decide) rfl rfl rfl rfl
